import Mathlib

/-!
Shallow embedding of `src/sandbox/main.py` (prefeitura-rio/app-rmi sandbox
API client): environment registry, credentials loader, OAuth2 token
acquisition, and the authenticated HTTP client, together with proofs of the
specification's claims about them.

Python values appearing in parsed YAML/JSON documents are modelled by
`PyVal`; parsed documents (Python dicts with string keys) by association
lists.  Python exceptions are modelled structurally by `PyError`: each
constructor corresponds to one raise site (or exception class) in the code,
keeping the payload that the Python message string is formatted from.
External effects (the credentials file, the token-endpoint HTTP exchange)
are passed in as explicit oracle arguments.
-/

namespace Sandbox

/-- A Python value as produced by `yaml.safe_load` / `json.load` /
`response.json()`: strings, integers, booleans, `None`, and string-keyed
dicts. -/
inductive PyVal where
  | str (s : String)
  | int (n : Int)
  | bool (b : Bool)
  | null
  | dict (d : List (String × PyVal))
deriving Repr

/-- A parsed document: a Python dict with string keys. -/
abbrev PyDict := List (String × PyVal)

/-- Python dict lookup `d[key]` / membership `key in d` (as an `Option`).
Polymorphic so it also serves for header dicts (`String`-valued). -/
def pyLookup {α : Type} : List (String × α) → String → Option α
  | [], _ => none
  | (k, v) :: rest, key => if k = key then some v else pyLookup rest key

/-- Python truthiness (`if self.access_token:`) for the modelled values. -/
def pyTruthy : PyVal → Bool
  | .str s => s ≠ ""
  | .int n => n ≠ 0
  | .bool b => b
  | .null => false
  | .dict d => !d.isEmpty

/-- Python `str()` rendering of a value, as used by f-strings
(`f'Bearer \x7bself.access_token\x7d'`).  Dict rendering is abbreviated:
no modelled scenario renders a dict into a header. -/
def pyStr : PyVal → String
  | .str s => s
  | .int n => toString n
  | .bool b => if b then "True" else "False"
  | .null => "None"
  | .dict _ => "dict"

/-- One entry of the `ENVIRONMENTS` table (main.py lines 10-26).
`yaml_file` is the file name under the user's home directory: the source
builds the path as `Path.home() / name`, so two entries denote the same
file exactly when their `yaml_file` names are equal. -/
structure EnvConfig where
  yaml_file : String
  api_base_url : String
  requires_auth : Bool
deriving Repr, DecidableEq

/-- The `"local"` entry of `ENVIRONMENTS` (main.py 11-15): staging config
file reused for local, localhost base URL, no authentication. -/
def localEnv : EnvConfig :=
  { yaml_file := "idcarioca_staging.yaml"
    api_base_url := "http://localhost:8080"
    requires_auth := false }

/-- The `"staging"` entry of `ENVIRONMENTS` (main.py 16-20). -/
def stagingEnv : EnvConfig :=
  { yaml_file := "idcarioca_staging.yaml"
    api_base_url := "https://services.staging.app.dados.rio/rmi"
    requires_auth := true }

/-- The `"prod"` entry of `ENVIRONMENTS` (main.py 21-25). -/
def prodEnv : EnvConfig :=
  { yaml_file := "idcarioca_prod.yaml"
    api_base_url := "https://services.pref.rio/rmi"
    requires_auth := true }

/-- The `ENVIRONMENTS` registry (main.py lines 10-26), as the lookup
function: Python dict lookup by exact key. -/
def ENVIRONMENTS (name : String) : Option EnvConfig :=
  if name = "local" then some localEnv
  else if name = "staging" then some stagingEnv
  else if name = "prod" then some prodEnv
  else none

/-- Python exceptions raised by the code, modelled structurally.  Each
constructor names one raise site (or propagated exception class):
* `invalidEnvironment`: `ValueError(f"Invalid environment: ...")`
  (main.py 36, 155, 205, 277) — spec `InvalidEnvironment`;
* `configFileNotFound`: `FileNotFoundError` (main.py 161) — spec
  `CredentialsFileNotFound`;
* `failedToParseConfig`: `ValueError(f"Failed to parse configuration
  file: ...")` (main.py 193) — spec `CredentialsParseError`;
* `missingRequiredFields`: `ValueError(f"Missing required OAuth2 fields:
  \x7bmissing_fields\x7d")` (main.py 187), keeping the list the message is
  formatted from — spec `MissingCredentialFields`;
* `nonDictSection`: stands for the `TypeError` Python raises when the
  `oauth2` value is not a dict and membership is tested on it (no claim
  exercises this case);
* `errorLoadingConfig`: `Exception(f"Error loading configuration: ...")`
  (main.py 195), wrapping the exception caught by the `except Exception`
  clause;
* `authenticationFailed`: `Exception(f"Authentication failed with status:
  ...")` (main.py 246), keeping the status — spec `AuthenticationFailed`;
* `noAccessToken`: `Exception("No access token received")` (main.py 254);
* `invalidTokenResponseFormat`: `Exception("Invalid token response
  format")` (main.py 267);
* `requestException`: `requests.exceptions.RequestException` re-raised at
  main.py 264 — spec `TransportError`. -/
inductive PyError where
  | invalidEnvironment (environment : String)
  | configFileNotFound
  | failedToParseConfig
  | missingRequiredFields (fields : List String)
  | nonDictSection
  | errorLoadingConfig (inner : PyError)
  | authenticationFailed (status : Nat)
  | noAccessToken
  | invalidTokenResponseFormat
  | requestException
deriving Repr, DecidableEq

/-- Spec error kind `MalformedTokenResponse`: per spec section 4.3 it covers
both the unparseable-200-body raise site (main.py 265-267) and the
missing-`access_token` raise site (main.py 251-254). -/
def PyError.isMalformedTokenResponse : PyError → Bool
  | .invalidTokenResponseFormat => true
  | .noAccessToken => true
  | _ => false

/-- Spec error kind `TransportError`: the propagated
`requests.exceptions.RequestException` (main.py 262-264). -/
def PyError.isTransportError : PyError → Bool
  | .requestException => true
  | _ => false

/-- Python `str.lower()` on the environment name, modelled character by
character (the recognised names and their case variants are ASCII, where
`Char.toLower` agrees with Python's lowercasing). -/
def pyLower (s : String) : String :=
  ⟨s.data.map Char.toLower⟩

/-- Environment resolution, as performed identically by
`APIClient.__init__` (main.py 33-38), `load_config` (154-158),
`get_access_token` (204-205) and `get_api_base_url` (276-279):
lower-case the name, look it up in `ENVIRONMENTS`, and raise
`ValueError` (`InvalidEnvironment`) when absent. -/
def resolve (environment : String) : Except PyError EnvConfig :=
  match ENVIRONMENTS (pyLower environment) with
  | some config => .ok config
  | none => .error (.invalidEnvironment environment)

/-- Oracle for the credentials file read by `load_config` (main.py 160-173):
whether the resolved path exists, the result of `yaml.safe_load` on its
content (`none` means the call raises `yaml.YAMLError`), and the result of
`json.load` on the same content (`none` means `json.JSONDecodeError`).
Documents are modelled as dicts, the only shape the claims exercise. -/
structure ConfigFile where
  pathExists : Bool
  yamlParse : Option PyDict
  jsonParse : Option PyDict

/-- The `required_fields` list of `load_config` (main.py 183). -/
def required_fields : List String :=
  ["issuer", "client_id", "client_secret"]

/-- `load_config` (main.py 150-195).  Control flow of the source:
invalid environment and missing file are raised before the `try` block and
escape unwrapped; inside the `try`, YAML parsing is attempted first and on
`yaml.YAMLError` the same content is re-read as JSON; a JSON failure
escapes to the `except (yaml.YAMLError, json.JSONDecodeError)` clause,
which raises the unwrapped parse `ValueError`; the missing-fields
`ValueError` is raised inside the `try`, so the `except Exception` clause
catches it and re-raises it wrapped in `Exception("Error loading
configuration: ...")` (modelled by `errorLoadingConfig`). -/
def load_config (environment : String) (file : ConfigFile) : Except PyError PyDict :=
  match resolve environment with
  | .error e => .error e
  | .ok _config =>
    if !file.pathExists then .error .configFileNotFound
    else
      match (match file.yamlParse with
             | some d => some d
             | none => file.jsonParse) with
      | none => .error .failedToParseConfig
      | some file_config =>
        match pyLookup file_config "oauth2" with
        | some (.dict sub) => validate_fields sub
        | some _ => .error (.errorLoadingConfig .nonDictSection)
        | none => validate_fields file_config
where
  /-- The required-fields validation of `load_config` (main.py 182-190),
  including the `except Exception` re-wrap of its `ValueError`. -/
  validate_fields (oauth_config : PyDict) : Except PyError PyDict :=
    let missing_fields := required_fields.filter
      (fun field => (pyLookup oauth_config field).isNone)
    if missing_fields.isEmpty then .ok oauth_config
    else .error (.errorLoadingConfig (.missingRequiredFields missing_fields))

/-- The token endpoint's HTTP response as seen by `get_access_token`:
its status code and the result of `response.json()` (`none` means that
call raises `json.JSONDecodeError`). -/
structure HttpResponse where
  status : Nat
  jsonBody : Option PyDict

/-- Observable outcome of `get_access_token`: the returned value or
escaping exception, the number of POSTs actually issued to the token
endpoint, and the token type printed on success (main.py 257, the only
place `token_type` is materialised: `tokens.get('token_type', 'Bearer')`). -/
structure GetTokenResult where
  result : Except PyError (Option PyVal)
  tokenRequests : Nat
  loggedTokenType : Option PyVal

/-- `get_access_token` (main.py 197-270).  The token-endpoint exchange is
the oracle `net`: `.error ()` means `requests.post` raises a
`requests.exceptions.RequestException` (re-raised unchanged at main.py
262-264), `.ok response` means a response was delivered.  The outer
`except` clauses: `RequestException` re-raises, `json.JSONDecodeError`
(from `response.json()`) becomes `Exception("Invalid token response
format")`, and the bare `raise` of `except Exception` re-raises every
other exception unchanged, so `load_config` errors and the
authentication/no-token raises pass through as they are. -/
def get_access_token (environment : String) (file : ConfigFile)
    (net : Except Unit HttpResponse) : GetTokenResult :=
  match resolve environment with
  | .error e => { result := .error e, tokenRequests := 0, loggedTokenType := none }
  | .ok config =>
    if !config.requires_auth then
      { result := .ok none, tokenRequests := 0, loggedTokenType := none }
    else
      match load_config environment file with
      | .error e => { result := .error e, tokenRequests := 0, loggedTokenType := none }
      | .ok _oauth_config =>
        match net with
        | .error _ =>
          { result := .error .requestException, tokenRequests := 1, loggedTokenType := none }
        | .ok response =>
          if response.status ≠ 200 then
            { result := .error (.authenticationFailed response.status),
              tokenRequests := 1, loggedTokenType := none }
          else
            match response.jsonBody with
            | none =>
              { result := .error .invalidTokenResponseFormat,
                tokenRequests := 1, loggedTokenType := none }
            | some tokens =>
              match pyLookup tokens "access_token" with
              | none =>
                { result := .error .noAccessToken,
                  tokenRequests := 1, loggedTokenType := none }
              | some token =>
                { result := .ok (some token), tokenRequests := 1,
                  loggedTokenType := some ((pyLookup tokens "token_type").getD (.str "Bearer")) }

/-- Python dict item assignment `d[k] = v`: replaces the value in place
when the key is present (keys are unique in a Python dict, so the first
occurrence is the only one), appends the pair otherwise. -/
def dictAssign {α : Type} : List (String × α) → String → α → List (String × α)
  | [], k, v => [(k, v)]
  | (a, b) :: t, k, v => if a = k then (k, v) :: t else (a, b) :: dictAssign t k v

/-- Python dict unpacking merge as in `\x7b**a, **(b)\x7d` (main.py 64, 89,
116, 141): start from `a` and assign each entry of `b` in order, so values
from `b` win on key collision. -/
def pyDictMerge {α : Type} (a b : List (String × α)) : List (String × α) :=
  b.foldl (fun acc p => dictAssign acc p.1 p.2) a

/-- The state of an `APIClient` after `__init__` (main.py 33-49). -/
structure APIClient where
  environment : String
  base_url : String
  access_token : Option PyVal
  headers : List (String × String)

/-- `APIClient.__init__` (main.py 33-49).  Returns the constructed client
or the escaping exception, paired with the number of token-endpoint
requests performed during construction.  `get_access_token` is invoked
only when the resolved config has `requires_auth` (main.py 40); the
`Authorization` header is added only when the obtained token is truthy
(main.py 48-49). -/
def APIClient.init (environment : String) (file : ConfigFile)
    (net : Except Unit HttpResponse) : Except PyError APIClient × Nat :=
  match resolve environment with
  | .error e => (.error e, 0)
  | .ok config =>
    let tok : GetTokenResult :=
      if config.requires_auth then get_access_token environment file net
      else { result := .ok none, tokenRequests := 0, loggedTokenType := none }
    match tok.result with
    | .error e => (.error e, tok.tokenRequests)
    | .ok access_token =>
      let base : List (String × String) := [("Content-Type", "application/json")]
      let headers :=
        match access_token with
        | some v =>
          if pyTruthy v then dictAssign base "Authorization" ("Bearer " ++ pyStr v)
          else base
        | none => base
      (.ok { environment := pyLower environment, base_url := config.api_base_url,
             access_token := access_token, headers := headers },
       tok.tokenRequests)

/-- The outgoing HTTP request assembled by a client operation, with the
keyword arguments the source passes to the `requests` library. -/
structure Request where
  method : String
  url : String
  params : Option (List (String × String))
  data : Option (List (String × String))
  jsonData : Option PyDict
  headers : List (String × String)
  timeout : Nat

/-- `APIClient.get` (main.py 51-73): URL is base URL with the path appended
verbatim; headers are the defaults merged with the per-call extras
(`headers or \x7b\x7d` maps `None` to the empty dict). -/
def APIClient.get (c : APIClient) (path : String)
    (params : Option (List (String × String)))
    (headers : Option (List (String × String))) : Request :=
  { method := "GET", url := c.base_url ++ path, params := params,
    data := none, jsonData := none,
    headers := pyDictMerge c.headers (headers.getD []), timeout := 30 }

/-- `APIClient.post` (main.py 75-100): passes both `data` and `json` on to
`requests.post`. -/
def APIClient.post (c : APIClient) (path : String)
    (data : Option (List (String × String))) (json_data : Option PyDict)
    (headers : Option (List (String × String))) : Request :=
  { method := "POST", url := c.base_url ++ path, params := none,
    data := data, jsonData := json_data,
    headers := pyDictMerge c.headers (headers.getD []), timeout := 30 }

/-- `APIClient.put` (main.py 102-127): same shape as `post`. -/
def APIClient.put (c : APIClient) (path : String)
    (data : Option (List (String × String))) (json_data : Option PyDict)
    (headers : Option (List (String × String))) : Request :=
  { method := "PUT", url := c.base_url ++ path, params := none,
    data := data, jsonData := json_data,
    headers := pyDictMerge c.headers (headers.getD []), timeout := 30 }

/-- `APIClient.delete` (main.py 129-148). -/
def APIClient.delete (c : APIClient) (path : String)
    (headers : Option (List (String × String))) : Request :=
  { method := "DELETE", url := c.base_url ++ path, params := none,
    data := none, jsonData := none,
    headers := pyDictMerge c.headers (headers.getD []), timeout := 30 }

/-- The wire body of a prepared request. -/
inductive PreparedBody where
  | empty
  | formEncoded (d : List (String × String))
  | jsonEncoded (d : PyDict)

/-- Body selection of the `requests` library
(`requests.models.PreparedRequest.prepare_body`), which receives the
`data=` and `json=` keyword arguments the client passes: the `json`
argument is used only when `data` is falsy (`if not data and json is not
None:`), and whenever `data` is truthy the body is the form-encoded
`data` (`if data: body = self._encode_params(data)`). -/
def prepare_body (data : Option (List (String × String)))
    (json : Option PyDict) : PreparedBody :=
  match data with
  | some d =>
    if d.isEmpty then
      match json with
      | some j => .jsonEncoded j
      | none => .empty
    else .formEncoded d
  | none =>
    match json with
    | some j => .jsonEncoded j
    | none => .empty

/-- The body that actually goes out on the wire for a client request. -/
def sentBody (r : Request) : PreparedBody :=
  prepare_body r.data r.jsonData

/-- The client that `APIClient.init` constructs for the `local`
environment (no token, default headers only); see the construction
theorems below. -/
def testClient : APIClient :=
  { environment := "local", base_url := "http://localhost:8080",
    access_token := none, headers := [("Content-Type", "application/json")] }

/-- First-defined-wins choice on options; `orElseO x y` is `x` when `x`
carries a value and `y` otherwise.  Used to state the dict-merge lookup
law. -/
def orElseO {α : Type} : Option α → Option α → Option α
  | some v, _ => some v
  | none, y => y

/-! Helper lemmas about Python dict lookup, assignment and merge. -/

theorem pyLookup_eq_none_of_not_mem {α : Type} (d : List (String × α)) (k : String)
    (h : k ∉ d.map Prod.fst) : pyLookup d k = none := by
  induction d with
  | nil => rfl
  | cons p t ih =>
    obtain ⟨a, b⟩ := p
    simp only [List.map_cons, List.mem_cons] at h
    push_neg at h
    have ha : a ≠ k := fun he => h.1 he.symm
    simp [pyLookup, ha, ih h.2]

theorem pyLookup_dictAssign_self {α : Type} (d : List (String × α)) (k : String) (v : α) :
    pyLookup (dictAssign d k v) k = some v := by
  induction d with
  | nil => simp [dictAssign, pyLookup]
  | cons p t ih =>
    obtain ⟨a, b⟩ := p
    by_cases hp : a = k
    · simp [dictAssign, hp, pyLookup]
    · simp [dictAssign, hp, pyLookup, ih]

theorem pyLookup_dictAssign_ne {α : Type} (d : List (String × α)) (k k' : String) (v : α)
    (h : k' ≠ k) : pyLookup (dictAssign d k v) k' = pyLookup d k' := by
  induction d with
  | nil => simp [dictAssign, pyLookup, Ne.symm h]
  | cons p t ih =>
    obtain ⟨a, b⟩ := p
    by_cases hp : a = k
    · subst hp
      simp [dictAssign, pyLookup, Ne.symm h]
    · simp [dictAssign, hp, pyLookup, ih]

theorem pyLookup_pyDictMerge {α : Type} (b a : List (String × α)) (k : String)
    (hnodup : (b.map Prod.fst).Nodup) :
    pyLookup (pyDictMerge a b) k = orElseO (pyLookup b k) (pyLookup a k) := by
  induction b generalizing a with
  | nil => rfl
  | cons p t ih =>
    obtain ⟨k₀, v₀⟩ := p
    simp only [List.map_cons, List.nodup_cons] at hnodup
    have hstep : pyDictMerge a ((k₀, v₀) :: t) = pyDictMerge (dictAssign a k₀ v₀) t := rfl
    rw [hstep, ih (dictAssign a k₀ v₀) hnodup.2]
    by_cases hk : k = k₀
    · subst hk
      rw [pyLookup_eq_none_of_not_mem t k hnodup.1, pyLookup_dictAssign_self]
      simp [pyLookup, orElseO]
    · rw [pyLookup_dictAssign_ne a k₀ k v₀ hk]
      simp [pyLookup, orElseO, Ne.symm hk]

/-- C1: for every string whose lowercasing is one of the three recognised
environment names, `resolve` returns the documented descriptor (base URL
and auth-required flag stated explicitly); for every other string it fails
with `InvalidEnvironment` and returns no descriptor. -/
theorem resolve_environment_correct (s : String) :
    (pyLower s = "local" →
      resolve s = .ok { yaml_file := "idcarioca_staging.yaml",
                        api_base_url := "http://localhost:8080",
                        requires_auth := false }) ∧
    (pyLower s = "staging" →
      resolve s = .ok { yaml_file := "idcarioca_staging.yaml",
                        api_base_url := "https://services.staging.app.dados.rio/rmi",
                        requires_auth := true }) ∧
    (pyLower s = "prod" →
      resolve s = .ok { yaml_file := "idcarioca_prod.yaml",
                        api_base_url := "https://services.pref.rio/rmi",
                        requires_auth := true }) ∧
    (pyLower s ≠ "local" → pyLower s ≠ "staging" → pyLower s ≠ "prod" →
      resolve s = .error (.invalidEnvironment s)) := by
  refine ⟨fun h => ?_, fun h => ?_, fun h => ?_, fun h1 h2 h3 => ?_⟩
  · simp [resolve, ENVIRONMENTS, h, localEnv]
  · simp [resolve, ENVIRONMENTS, h, stagingEnv]
  · simp [resolve, ENVIRONMENTS, h, prodEnv]
  · simp [resolve, ENVIRONMENTS, h1, h2, h3]

/-- C1 witness: case-variant names of all three environments resolve to
their descriptors, an unrecognised name is rejected. -/
theorem resolve_environment_correct_witness :
    resolve "LOCAL" = .ok { yaml_file := "idcarioca_staging.yaml",
                            api_base_url := "http://localhost:8080",
                            requires_auth := false } ∧
    resolve "Staging" = .ok { yaml_file := "idcarioca_staging.yaml",
                              api_base_url := "https://services.staging.app.dados.rio/rmi",
                              requires_auth := true } ∧
    resolve "pRoD" = .ok { yaml_file := "idcarioca_prod.yaml",
                           api_base_url := "https://services.pref.rio/rmi",
                           requires_auth := true } ∧
    resolve "dev" = .error (.invalidEnvironment "dev") :=
  ⟨(resolve_environment_correct "LOCAL").1 (by decide),
   (resolve_environment_correct "Staging").2.1 (by decide),
   (resolve_environment_correct "pRoD").2.2.1 (by decide),
   (resolve_environment_correct "dev").2.2.2 (by decide) (by decide) (by decide)⟩

/-- C10: the registry maps `local` and `staging` to the same credentials
file name under the user's home directory (`idcarioca_staging.yaml`), and
only `prod` to a distinct one (`idcarioca_prod.yaml`). -/
theorem registry_shared_credentials_path :
    (ENVIRONMENTS "local").map EnvConfig.yaml_file = some "idcarioca_staging.yaml" ∧
    (ENVIRONMENTS "staging").map EnvConfig.yaml_file = some "idcarioca_staging.yaml" ∧
    (ENVIRONMENTS "prod").map EnvConfig.yaml_file = some "idcarioca_prod.yaml" ∧
    localEnv.yaml_file = stagingEnv.yaml_file ∧
    prodEnv.yaml_file ≠ localEnv.yaml_file ∧
    prodEnv.yaml_file ≠ stagingEnv.yaml_file := by
  refine ⟨rfl, rfl, rfl, rfl, ?_, ?_⟩ <;> decide

/-- C2: for every client, every operation (GET, POST, PUT, DELETE) and
every dict of extra per-call headers, looking up any key in the outgoing
headers gives the extra headers' value when present and the client default
otherwise (per-call values win on collision); in particular a per-call
`Content-Type: text/plain` is the outgoing `Content-Type`, replacing any
default, on all four operations. -/
theorem request_headers_overlay (c : APIClient) (path : String)
    (params : Option (List (String × String)))
    (data : Option (List (String × String))) (json_data : Option PyDict)
    (extra : List (String × String)) (hnodup : (extra.map Prod.fst).Nodup)
    (k : String) :
    (pyLookup (c.get path params (some extra)).headers k
      = orElseO (pyLookup extra k) (pyLookup c.headers k)) ∧
    (pyLookup (c.post path data json_data (some extra)).headers k
      = orElseO (pyLookup extra k) (pyLookup c.headers k)) ∧
    (pyLookup (c.put path data json_data (some extra)).headers k
      = orElseO (pyLookup extra k) (pyLookup c.headers k)) ∧
    (pyLookup (c.delete path (some extra)).headers k
      = orElseO (pyLookup extra k) (pyLookup c.headers k)) ∧
    (pyLookup (c.get path params (some [("Content-Type", "text/plain")])).headers
      "Content-Type" = some "text/plain") ∧
    (pyLookup (c.post path data json_data (some [("Content-Type", "text/plain")])).headers
      "Content-Type" = some "text/plain") ∧
    (pyLookup (c.put path data json_data (some [("Content-Type", "text/plain")])).headers
      "Content-Type" = some "text/plain") ∧
    (pyLookup (c.delete path (some [("Content-Type", "text/plain")])).headers
      "Content-Type" = some "text/plain") := by
  have hover : ∀ k' : String,
      pyLookup (pyDictMerge c.headers extra) k'
        = orElseO (pyLookup extra k') (pyLookup c.headers k') :=
    fun k' => pyLookup_pyDictMerge extra c.headers k' hnodup
  have hct : pyLookup (pyDictMerge c.headers [("Content-Type", "text/plain")])
      "Content-Type" = some "text/plain" := by
    rw [pyLookup_pyDictMerge _ _ _ (by simp)]
    simp [pyLookup, orElseO]
  exact ⟨hover k, hover k, hover k, hover k, hct, hct, hct, hct⟩

/-- C2 witness: on the local-environment client (default header
`Content-Type: application/json`), a per-call `Content-Type: text/plain`
together with a fresh `X-Request-Id` header yields outgoing headers where
the per-call `Content-Type` won and both the fresh key and the untouched
defaults are present. -/
theorem request_headers_overlay_witness :
    pyLookup (testClient.get "/v1/health" none
        (some [("Content-Type", "text/plain"), ("X-Request-Id", "42")])).headers
      "Content-Type" = some "text/plain" := by
  have h := (request_headers_overlay testClient "/v1/health" none none none
    [("Content-Type", "text/plain"), ("X-Request-Id", "42")] (by decide) "Content-Type").1
  exact h

/-- C8: for every environment whose descriptor has `requires_auth = false`,
client construction succeeds with no token, its default headers are exactly
`Content-Type: application/json` with no `Authorization` entry, and zero
token-endpoint requests are performed (whatever the credentials file or the
network would have answered); `get_access_token` likewise returns no token
(not an error) and issues no request. -/
theorem no_auth_client_construction (s : String) (cfg : EnvConfig)
    (file : ConfigFile) (net : Except Unit HttpResponse)
    (hres : resolve s = .ok cfg) (hauth : cfg.requires_auth = false) :
    APIClient.init s file net =
      (.ok { environment := pyLower s, base_url := cfg.api_base_url,
             access_token := none,
             headers := [("Content-Type", "application/json")] }, 0) ∧
    pyLookup [("Content-Type", "application/json")] "Authorization"
      = (none : Option String) ∧
    (get_access_token s file net).result = .ok none ∧
    (get_access_token s file net).tokenRequests = 0 := by
  refine ⟨?_, by simp [pyLookup], ?_, ?_⟩
  · simp [APIClient.init, hres, hauth]
  · simp [get_access_token, hres, hauth]
  · simp [get_access_token, hres, hauth]

/-- C8 witness: constructing the client for `local` with an absent
credentials file and a failing network succeeds with the default headers
and no token request. -/
theorem no_auth_client_construction_witness :
    APIClient.init "local" ⟨false, none, none⟩ (.error ()) = (.ok testClient, 0) ∧
    (get_access_token "local" ⟨false, none, none⟩ (.error ())).tokenRequests = 0 :=
  ⟨(no_auth_client_construction "local" localEnv ⟨false, none, none⟩ (.error ())
      rfl rfl).1,
   (no_auth_client_construction "local" localEnv ⟨false, none, none⟩ (.error ())
      rfl rfl).2.2.2⟩

/-- Fixture: a well-formed credentials document with the three required
OAuth2 fields at top level, and the credentials file parsing to it as
YAML. -/
def goodOauthDoc : PyDict :=
  [("issuer", .str "https://auth.example/realms/rmi"),
   ("client_id", .str "rmi-client"),
   ("client_secret", .str "s3cret")]

/-- Fixture: a present credentials file whose content parses as YAML to
`goodOauthDoc`. -/
def goodFile : ConfigFile :=
  { pathExists := true, yamlParse := some goodOauthDoc, jsonParse := none }

/-- C3: once the token endpoint has answered with HTTP 200 (environment
resolved, auth required, credentials loaded), token acquisition fails with
the `MalformedTokenResponse`-kind exception of the matching raise site —
`Invalid token response format` when the body does not parse, `No access
token received` when the parsed body lacks `access_token` — and in neither
case (nor any other 200 outcome) with the `TransportError` kind. -/
theorem token_200_malformed (environment : String) (file : ConfigFile)
    (resp : HttpResponse) (cfg : EnvConfig) (oauth_config : PyDict)
    (hres : resolve environment = .ok cfg) (hauth : cfg.requires_auth = true)
    (hload : load_config environment file = .ok oauth_config)
    (h200 : resp.status = 200) :
    (resp.jsonBody = none →
      (get_access_token environment file (.ok resp)).result
        = .error .invalidTokenResponseFormat) ∧
    (∀ tokens, resp.jsonBody = some tokens →
      pyLookup tokens "access_token" = none →
      (get_access_token environment file (.ok resp)).result
        = .error .noAccessToken) ∧
    PyError.isMalformedTokenResponse .invalidTokenResponseFormat = true ∧
    PyError.isMalformedTokenResponse .noAccessToken = true ∧
    (∀ e : PyError,
      (get_access_token environment file (.ok resp)).result = .error e →
      e.isTransportError = false) := by
  refine ⟨fun hbody => ?_, fun tokens hbody htok => ?_, rfl, rfl, fun e he => ?_⟩
  · simp [get_access_token, hres, hauth, hload, h200, hbody]
  · simp [get_access_token, hres, hauth, hload, h200, hbody, htok]
  · rcases hbody : resp.jsonBody with _ | tokens
    · have hr : (get_access_token environment file (.ok resp)).result
          = .error .invalidTokenResponseFormat := by
        simp [get_access_token, hres, hauth, hload, h200, hbody]
      rw [hr] at he
      injection he with h
      subst h
      rfl
    · rcases htok : pyLookup tokens "access_token" with _ | v
      · have hr : (get_access_token environment file (.ok resp)).result
            = .error .noAccessToken := by
          simp [get_access_token, hres, hauth, hload, h200, hbody, htok]
        rw [hr] at he
        injection he with h
        subst h
        rfl
      · have hr : (get_access_token environment file (.ok resp)).result
            = .ok (some v) := by
          simp [get_access_token, hres, hauth, hload, h200, hbody, htok]
        rw [hr] at he
        simp at he

/-- C3 witness: against the staging environment with a good credentials
file, a 200 response with unparseable body yields `Invalid token response
format`, and a 200 response whose parsed body has `token_type` and
`expires_in` but no `access_token` yields `No access token received`. -/
theorem token_200_malformed_witness :
    (get_access_token "staging" goodFile (.ok ⟨200, none⟩)).result
      = .error .invalidTokenResponseFormat ∧
    (get_access_token "staging" goodFile
        (.ok ⟨200, some [("token_type", .str "Bearer"), ("expires_in", .int 300)]⟩)).result
      = .error .noAccessToken :=
  ⟨(token_200_malformed "staging" goodFile ⟨200, none⟩ stagingEnv goodOauthDoc
      rfl rfl rfl rfl).1 rfl,
   (token_200_malformed "staging" goodFile
      ⟨200, some [("token_type", .str "Bearer"), ("expires_in", .int 300)]⟩
      stagingEnv goodOauthDoc rfl rfl rfl rfl).2.1
     [("token_type", .str "Bearer"), ("expires_in", .int 300)] rfl rfl⟩

/-- C4: once the token endpoint has answered with any status other than 200
(environment resolved, auth required, credentials loaded), token
acquisition fails with `AuthenticationFailed` carrying exactly that status,
and no token is returned. -/
theorem token_non200_authentication_failed (environment : String)
    (file : ConfigFile) (resp : HttpResponse) (cfg : EnvConfig)
    (oauth_config : PyDict)
    (hres : resolve environment = .ok cfg) (hauth : cfg.requires_auth = true)
    (hload : load_config environment file = .ok oauth_config)
    (hstatus : resp.status ≠ 200) :
    (get_access_token environment file (.ok resp)).result
      = .error (.authenticationFailed resp.status) ∧
    ∀ t : Option PyVal,
      (get_access_token environment file (.ok resp)).result ≠ .ok t := by
  have hr : (get_access_token environment file (.ok resp)).result
      = .error (.authenticationFailed resp.status) := by
    simp [get_access_token, hres, hauth, hload, hstatus]
  exact ⟨hr, fun t ht => by rw [hr] at ht; exact Except.noConfusion ht⟩

/-- C4 witness: a 401 response — even one whose body does contain an
`access_token` — makes acquisition fail with `AuthenticationFailed 401`,
returning no token. -/
theorem token_non200_authentication_failed_witness :
    (get_access_token "staging" goodFile
        (.ok ⟨401, some [("access_token", .str "abc123")]⟩)).result
      = .error (.authenticationFailed 401) :=
  (token_non200_authentication_failed "staging" goodFile
    ⟨401, some [("access_token", .str "abc123")]⟩ stagingEnv goodOauthDoc
    rfl rfl rfl (by decide)).1

/-- C5: once the token endpoint has answered 200 with a parsed body
containing `access_token` (environment resolved, auth required,
credentials loaded), acquisition succeeds returning exactly that value,
and when the body omits `token_type` the token type materialised by the
code (in its success diagnostic, the only place `token_type` is used)
defaults to `Bearer`. -/
theorem token_200_success_bearer_default (environment : String)
    (file : ConfigFile) (resp : HttpResponse) (cfg : EnvConfig)
    (oauth_config : PyDict) (tokens : PyDict) (v : PyVal)
    (hres : resolve environment = .ok cfg) (hauth : cfg.requires_auth = true)
    (hload : load_config environment file = .ok oauth_config)
    (h200 : resp.status = 200) (hbody : resp.jsonBody = some tokens)
    (htok : pyLookup tokens "access_token" = some v)
    (hnotype : pyLookup tokens "token_type" = none) :
    (get_access_token environment file (.ok resp)).result = .ok (some v) ∧
    (get_access_token environment file (.ok resp)).loggedTokenType
      = some (.str "Bearer") := by
  constructor
  · simp [get_access_token, hres, hauth, hload, h200, hbody, htok]
  · simp [get_access_token, hres, hauth, hload, h200, hbody, htok, hnotype]

/-- C5 witness: a 200 response with body
`access_token: abc123, expires_in: 300` (no `token_type`) yields the token
`abc123` with the token type defaulted to `Bearer`. -/
theorem token_200_success_bearer_default_witness :
    (get_access_token "staging" goodFile
        (.ok ⟨200, some [("access_token", .str "abc123"), ("expires_in", .int 300)]⟩)).result
      = .ok (some (.str "abc123")) ∧
    (get_access_token "staging" goodFile
        (.ok ⟨200, some [("access_token", .str "abc123"), ("expires_in", .int 300)]⟩)).loggedTokenType
      = some (.str "Bearer") :=
  token_200_success_bearer_default "staging" goodFile
    ⟨200, some [("access_token", .str "abc123"), ("expires_in", .int 300)]⟩
    stagingEnv goodOauthDoc
    [("access_token", .str "abc123"), ("expires_in", .int 300)] (.str "abc123")
    rfl rfl rfl rfl rfl rfl rfl

/-- C6: for every parsed credentials document (the OAuth section itself,
i.e. no `oauth2` key) missing at least one of the three required keys,
loading fails with the missing-fields exception (the `ValueError` naming
the fields, re-wrapped by the loader's `except Exception` clause) whose
payload is exactly the list of all absent required fields, in the
`required_fields` order — and the same holds when the document is wrapped
under a top-level `oauth2` key. -/
theorem load_config_missing_fields (environment : String) (file : ConfigFile)
    (cfg : EnvConfig) (doc : PyDict)
    (hres : resolve environment = .ok cfg)
    (hexists : file.pathExists = true)
    (hyaml : file.yamlParse = some doc)
    (hplain : pyLookup doc "oauth2" = none)
    (hmiss : ∃ f ∈ required_fields, pyLookup doc f = none) :
    load_config environment file =
      .error (.errorLoadingConfig (.missingRequiredFields
        (required_fields.filter (fun f => (pyLookup doc f).isNone)))) ∧
    (∀ f, f ∈ required_fields.filter (fun f => (pyLookup doc f).isNone) ↔
      (f ∈ required_fields ∧ pyLookup doc f = none)) ∧
    (∀ file' : ConfigFile, file'.pathExists = true →
      file'.yamlParse = some [("oauth2", .dict doc)] →
      load_config environment file' =
        .error (.errorLoadingConfig (.missingRequiredFields
          (required_fields.filter (fun f => (pyLookup doc f).isNone))))) := by
  obtain ⟨f₀, hf₀, hnone₀⟩ := hmiss
  have hf₀mem : f₀ ∈ required_fields.filter (fun f => (pyLookup doc f).isNone) :=
    List.mem_filter.mpr ⟨hf₀, by simp [hnone₀]⟩
  have hne : (required_fields.filter (fun f => (pyLookup doc f).isNone)).isEmpty
      = false := by
    cases hfe : required_fields.filter (fun f => (pyLookup doc f).isNone) with
    | nil => rw [hfe] at hf₀mem; cases hf₀mem
    | cons a t => rfl
  refine ⟨?_, fun f => ?_, fun file' hex' hyaml' => ?_⟩
  · simp [load_config, hres, hexists, hyaml, hplain, load_config.validate_fields, hne]
  · simp [List.mem_filter, Option.isNone_iff_eq_none]
  · simp [load_config, hres, hex', hyaml', pyLookup, load_config.validate_fields, hne]

/-- Fixture: a present credentials file whose YAML content has `issuer`
and `client_id` but no `client_secret`. -/
def fileMissingSecret : ConfigFile :=
  { pathExists := true
    yamlParse := some [("issuer", .str "https://auth.example/realms/rmi"),
                       ("client_id", .str "rmi-client")]
    jsonParse := none }

/-- C6 witness: loading a credentials file missing only `client_secret`
fails naming exactly `client_secret`. -/
theorem load_config_missing_fields_witness :
    load_config "staging" fileMissingSecret =
      .error (.errorLoadingConfig (.missingRequiredFields ["client_secret"])) :=
  (load_config_missing_fields "staging" fileMissingSecret stagingEnv
    [("issuer", .str "https://auth.example/realms/rmi"),
     ("client_id", .str "rmi-client")]
    rfl rfl rfl rfl ⟨"client_secret", by decide, rfl⟩).1

/-- C7: the loader attempts YAML first — when YAML parses, the JSON
interpretation is never consulted (the result is the same whatever JSON
would have said); on YAML failure the same content is retried as JSON
(yielding exactly what a successful YAML parse of that document would
have); and when neither format parses, loading fails with the parse
`ValueError` (`CredentialsParseError`). -/
theorem load_config_parse_fallback (environment : String) (cfg : EnvConfig)
    (hres : resolve environment = .ok cfg) :
    (∀ (pe : Bool) (d : PyDict) (j j' : Option PyDict),
      load_config environment ⟨pe, some d, j⟩
        = load_config environment ⟨pe, some d, j'⟩) ∧
    (∀ d : PyDict,
      load_config environment ⟨true, none, some d⟩
        = load_config environment ⟨true, some d, none⟩) ∧
    load_config environment ⟨true, none, none⟩ = .error .failedToParseConfig := by
  refine ⟨fun pe d j j' => ?_, fun d => ?_, ?_⟩ <;> simp [load_config, hres]

/-- C7 witness: a file parseable by neither format fails with the parse
error, and with YAML parsing successfully the JSON oracle is irrelevant. -/
theorem load_config_parse_fallback_witness :
    load_config "prod" ⟨true, none, none⟩ = .error .failedToParseConfig ∧
    load_config "prod" ⟨true, some goodOauthDoc, none⟩
      = load_config "prod" ⟨true, some goodOauthDoc, some []⟩ :=
  ⟨(load_config_parse_fallback "prod" prodEnv rfl).2.2,
   (load_config_parse_fallback "prod" prodEnv rfl).1 true goodOauthDoc none (some [])⟩

/-- C9 counterexample: on a POST (and a PUT) supplied with both a non-empty
form-data dict and a JSON payload, the wire body is the form-encoded data,
not the JSON payload — the `requests` library uses the `json` argument
only when `data` is falsy, so the claim's JSON-precedence fails here. -/
theorem json_precedence_counterexample :
    sentBody (testClient.post "/v1/avatars"
        (some [("name", "John Doe")]) (some [("name", .str "John Doe")]) none)
      = .formEncoded [("name", "John Doe")] ∧
    sentBody (testClient.post "/v1/avatars"
        (some [("name", "John Doe")]) (some [("name", .str "John Doe")]) none)
      ≠ .jsonEncoded [("name", .str "John Doe")] ∧
    sentBody (testClient.put "/v1/users/45049725810/avatar"
        (some [("avatar_id", "7")]) (some [("avatar_id", .int 7)]) none)
      = .formEncoded [("avatar_id", "7")] ∧
    sentBody (testClient.put "/v1/users/45049725810/avatar"
        (some [("avatar_id", "7")]) (some [("avatar_id", .int 7)]) none)
      ≠ .jsonEncoded [("avatar_id", .int 7)] := by
  refine ⟨rfl, ?_, rfl, ?_⟩ <;> (intro h; exact PreparedBody.noConfusion h)

/-- C9 amended: for every POST or PUT call in which both a non-empty
form-encoded data body and a structured JSON payload are supplied, the
form data takes precedence — the outgoing request carries the form-encoded
data as its body, not the JSON payload. -/
theorem form_data_precedence (c : APIClient) (path : String)
    (data : List (String × String)) (hdata : data ≠ [])
    (json_data : Option PyDict) (headers : Option (List (String × String))) :
    sentBody (c.post path (some data) json_data headers) = .formEncoded data ∧
    sentBody (c.put path (some data) json_data headers) = .formEncoded data := by
  have hne : data.isEmpty = false := by
    cases data with
    | nil => exact absurd rfl hdata
    | cons a t => rfl
  constructor <;> simp [sentBody, prepare_body, APIClient.post, APIClient.put, hne]

/-- C9 amended witness: concrete POST and PUT calls carrying both bodies
send the form-encoded data. -/
theorem form_data_precedence_witness :
    sentBody (testClient.post "/v1/avatars" (some [("name", "John Doe")])
        (some [("url", .str "https://example.com/avatar.png")]) none)
      = .formEncoded [("name", "John Doe")] ∧
    sentBody (testClient.put "/v1/avatars" (some [("name", "John Doe")])
        (some [("url", .str "https://example.com/avatar.png")]) none)
      = .formEncoded [("name", "John Doe")] :=
  form_data_precedence testClient "/v1/avatars" [("name", "John Doe")]
    (by decide) (some [("url", .str "https://example.com/avatar.png")]) none

end Sandbox
